import Mathlib

/-!
# mymem: a character device that serves `/proc/meminfo`

A shallow embedding of `src/mymem.c`.  The module's four static variables are
the structure `Module`; the host kernel is represented by the registrations it
holds for the module (`Registry`) and by the ordered list of host calls the
module has made (`trace`).  What the host answers during a call is a parameter
of that call (`ReadHost`, `InitHost`).

Machine integers are `Nat`/`Int` with explicit wrapping for an LP64 kernel:
`size_t` and pointers are 64-bit unsigned words, `ssize_t`, `long` and `loff_t`
are 64-bit signed, `int` is 32-bit signed.
-/

namespace Mymem

/-! ## Machine words -/

/-- Conversion to `size_t` / `unsigned long` (64-bit, unsigned). -/
def toSize (x : Int) : Nat := (x % 2 ^ 64).toNat

/-- Conversion to `ssize_t` / `long` / `loff_t` (64-bit, two's complement). -/
def toSsize (x : Int) : Int :=
  if x % 2 ^ 64 < 2 ^ 63 then x % 2 ^ 64 else x % 2 ^ 64 - 2 ^ 64

/-- Conversion to `int` (32-bit, two's complement). -/
def toInt32 (x : Int) : Int :=
  if x % 2 ^ 32 < 2 ^ 31 then x % 2 ^ 32 else x % 2 ^ 32 - 2 ^ 32

/-- Largest value of `ssize_t`. -/
def SSIZE_MAX : Nat := 2 ^ 63 - 1

/-- Largest value of `size_t`. -/
def SIZE_MAX : Nat := 2 ^ 64 - 1

/-- Linux `MAX_ERRNO`: the top 4095 pointer values encode error numbers. -/
def MAX_ERRNO : Nat := 4095

/-- Linux `IS_ERR`: the pointer word lies in the top `MAX_ERRNO` values. -/
def IS_ERR (p : Nat) : Bool := decide (2 ^ 64 - MAX_ERRNO ≤ p % 2 ^ 64)

/-- Linux `PTR_ERR`: the pointer word read as a `long`. -/
def PTR_ERR (p : Nat) : Int := toSsize (p : Int)

/-- Linux error number `ENOMEM`. -/
def ENOMEM : Int := 12

/-- Linux error number `EFAULT`. -/
def EFAULT : Int := 14

/-- The constant `MEMINFO_BUFFER_SIZE` of the source. -/
def MEMINFO_BUFFER_SIZE : Nat := 4096

/-- The constant `DEVICE_NAME` of the source. -/
def DEVICE_NAME : String := "mymem"

/-- The constant `CLASS_NAME` of the source. -/
def CLASS_NAME : String := "mymem"

/-! ## Memory, host calls, state -/

/-- One byte of memory; `none` is a byte that was never written. -/
abbrev Cell := Option Nat

/-- The host calls the module makes, with the arguments that matter. -/
inductive Event where
  | printk (level : String) (fmt : String) (args : List Int)
  | filp_open (path : String)
  | filp_close
  | get_fs
  | set_fs_kernel
  | set_fs_old
  | kfree
  | kmalloc (size : Nat)
  | kernel_read (count : Nat) (pos : Nat)
  | copy_to_user (n : Nat)
  | register_chrdev (major : Nat) (name : String)
  | unregister_chrdev (major : Int) (name : String)
  | class_create (name : String)
  | class_unregister (cls : Nat)
  | class_destroy (cls : Nat)
  | device_create (cls : Nat) (major : Int) (minor : Nat) (name : String)
  | device_destroy (cls : Nat) (major : Int) (minor : Nat)
  deriving DecidableEq

/-- The resources the module acquires from the host. -/
inductive Resource where
  | buffer
  | devnode
  | devclass
  | major
  deriving DecidableEq

/-- The resource a host call releases, if it releases one.  In Linux both
`class_unregister` and `class_destroy` drop the registration of the class
(`class_destroy` is a null/error check followed by `class_unregister`). -/
def Event.releases : Event → Option Resource
  | .kfree => some .buffer
  | .device_destroy _ _ _ => some .devnode
  | .class_unregister _ => some .devclass
  | .class_destroy _ => some .devclass
  | .unregister_chrdev _ _ => some .major
  | _ => none

/-- The release steps of a trace, in order. -/
def releaseSteps (tr : List Event) : List Resource := tr.filterMap Event.releases

/-- The static variables of the module. -/
structure Module where
  major_number : Int
  mymem_class : Nat
  mymem_device : Nat
  meminfo_buffer : Option (List Cell)
  deriving DecidableEq

/-- What the host currently has registered for the module. -/
structure Registry where
  chrdev : Bool
  devclass : Bool
  devnode : Bool
  deriving DecidableEq

/-- Nothing registered: the Unloaded state. -/
def Registry.empty : Registry := ⟨false, false, false⟩

/-- Major number, class and node registered: the Loaded state. -/
def Registry.loaded : Registry := ⟨true, true, true⟩

/-- Module variables, host registrations and the host calls made so far. -/
structure Kernel where
  mod : Module
  registry : Registry
  trace : List Event
  deriving DecidableEq

/-- Record a host call. -/
def emit (k : Kernel) (e : Event) : Kernel := { k with trace := k.trace ++ [e] }

/-- Assign the static `meminfo_buffer`. -/
def setBuffer (k : Kernel) (b : Option (List Cell)) : Kernel :=
  { k with mod := { k.mod with meminfo_buffer := b } }

/-! ## The host during one `read_meminfo` call -/

/-- The answers of the host during one call of `read_meminfo`: the pointer word
`filp_open` returns, whether `kmalloc` returns memory, the content of the
report, and the error number of `kernel_read` (0: the read succeeds). -/
structure ReadHost where
  filp_open : Nat
  kmalloc_ok : Bool
  report : List Nat
  read_errno : Nat
  deriving DecidableEq

/-- Host `kernel_read(file, buf, count, &pos)`: on error returns `-errno` and
leaves `buf` as it is; otherwise stores the bytes of the report from `pos`, at most `count` of them,
at the start of `buf` and returns how many. -/
def kernel_read (h : ReadHost) (buf : List Cell) (count pos : Nat) : Int × List Cell :=
  if h.read_errno ≠ 0 then (-(h.read_errno : Int), buf)
  else
    let data := (h.report.drop pos).take count
    ((data.length : Int), data.map some ++ buf.drop data.length)

/-- Host `copy_to_user(to, from, n)`: the destination region `dst` has
`dst.length` writable bytes; copies what fits and returns the number of bytes
that could not be copied. -/
def copy_to_user (dst : List Cell) (src : List Cell) (n : Nat) : Nat × List Cell :=
  let c := min n dst.length
  (n - c, src.take c ++ dst.drop c)

/-- Result of `read_meminfo`. -/
structure ReadResult where
  ret : Int
  kernel : Kernel
  user : List Cell
  deriving DecidableEq

/-- The function `read_meminfo(buffer, count)` of the source. -/
def read_meminfo (h : ReadHost) (k : Kernel) (buffer : List Cell) (count : Nat) : ReadResult :=
  let pos : Nat := 0
  let k := emit k (.filp_open "/proc/meminfo")
  if IS_ERR h.filp_open then
    let k := emit k (.printk "KERN_ERR" "mymem: Failed to open /proc/meminfo\n" [])
    ⟨PTR_ERR h.filp_open, k, buffer⟩
  else
    let k := emit (emit k .get_fs) .set_fs_kernel
    let k := if k.mod.meminfo_buffer.isSome then emit k .kfree else k
    let k := emit k (.kmalloc MEMINFO_BUFFER_SIZE)
    if !h.kmalloc_ok then
      let k := setBuffer k none
      let k := emit (emit k .filp_close) .set_fs_old
      ⟨-ENOMEM, k, buffer⟩
    else
      let buf0 : List Cell := List.replicate MEMINFO_BUFFER_SIZE none
      let k := setBuffer k (some buf0)
      let k := emit k (.kernel_read (MEMINFO_BUFFER_SIZE - 1) pos)
      let rd := kernel_read h buf0 (MEMINFO_BUFFER_SIZE - 1) pos
      let k := setBuffer k (some rd.2)
      let bytes_read : Int := rd.1
      let k := emit (emit k .set_fs_old) .filp_close
      if bytes_read < 0 then
        let k := setBuffer (emit k .kfree) none
        ⟨bytes_read, k, buffer⟩
      else
        let buf1 := rd.2.set (toSize bytes_read) (some 0)
        let k := setBuffer k (some buf1)
        let bytes_read : Int := if toSize bytes_read > count then toSsize (count : Int) else bytes_read
        let k := emit k (.copy_to_user (toSize bytes_read))
        let cp := copy_to_user buffer buf1 (toSize bytes_read)
        if cp.1 ≠ 0 then ⟨-EFAULT, k, cp.2⟩ else ⟨bytes_read, k, cp.2⟩

/-! ## File operations -/

/-- Result of a file operation: return value, state, the caller's buffer and
the handle's cursor (`*offset`) afterwards. -/
structure RwResult where
  ret : Int
  kernel : Kernel
  user : List Cell
  offset : Int
  deriving DecidableEq

/-- The function `mymem_open` of the source. -/
def mymem_open (k : Kernel) : Int × Kernel :=
  (0, emit k (.printk "KERN_INFO" "mymem: Device opened\n" []))

/-- The function `mymem_release` of the source. -/
def mymem_release (k : Kernel) : Int × Kernel :=
  (0, emit k (.printk "KERN_INFO" "mymem: Device closed\n" []))

/-- The function `mymem_read(file, buffer, count, offset)` of the source. -/
def mymem_read (h : ReadHost) (k : Kernel) (buffer : List Cell) (count : Nat) (offset : Int) :
    RwResult :=
  if offset > 0 then ⟨0, k, buffer, offset⟩
  else
    let r := read_meminfo h k buffer count
    if r.ret > 0 then ⟨r.ret, r.kernel, r.user, toSsize (offset + r.ret)⟩
    else ⟨r.ret, r.kernel, r.user, offset⟩

/-- The function `mymem_write(file, buffer, count, offset)` of the source. -/
def mymem_write (k : Kernel) (buffer : List Cell) (count : Nat) (offset : Int) : RwResult :=
  let k := emit k (.printk "KERN_INFO" "mymem: Write operation ignored (count=%zu)\n" [(count : Int)])
  ⟨toSsize (count : Int), k, buffer, offset⟩

/-- A call on an open handle. -/
inductive Call where
  | read (h : ReadHost) (buffer : List Cell) (count : Nat)
  | write (buffer : List Cell) (count : Nat)

/-- Run one call on a handle whose cursor is the second component. -/
def Call.run : Call → Kernel × Int → Kernel × Int
  | .read h buffer count, (k, off) =>
      let r := mymem_read h k buffer count off
      (r.kernel, r.offset)
  | .write buffer count, (k, off) =>
      let r := mymem_write k buffer count off
      (r.kernel, r.offset)

/-- Run a sequence of calls on one handle. -/
def runCalls (cs : List Call) (s : Kernel × Int) : Kernel × Int :=
  cs.foldl (fun s c => c.run s) s

/-! ## Module load and unload -/

/-- The answers of the host during `mymem_init`: the `int` returned by
`register_chrdev` and the pointer words returned by `class_create` and
`device_create`. -/
structure InitHost where
  register_chrdev : Int
  class_create : Nat
  device_create : Nat
  deriving DecidableEq

/-- Host `register_chrdev(0, name, fops)`: the major number is registered
exactly when the result is not negative. -/
def register_chrdev (h : InitHost) (k : Kernel) : Int × Kernel :=
  let k := emit k (.register_chrdev 0 DEVICE_NAME)
  (h.register_chrdev,
    if h.register_chrdev < 0 then k else { k with registry := { k.registry with chrdev := true } })

/-- Host `unregister_chrdev(major, name)`. -/
def unregister_chrdev (k : Kernel) (major : Int) : Kernel :=
  let k := emit k (.unregister_chrdev major DEVICE_NAME)
  { k with registry := { k.registry with chrdev := false } }

/-- Host `class_create(THIS_MODULE, name)`: the class is registered exactly
when the result is not an error pointer. -/
def class_create (h : InitHost) (k : Kernel) : Nat × Kernel :=
  let k := emit k (.class_create CLASS_NAME)
  (h.class_create,
    if IS_ERR h.class_create then k else { k with registry := { k.registry with devclass := true } })

/-- Host `class_unregister(cls)`. -/
def class_unregister (k : Kernel) (cls : Nat) : Kernel :=
  let k := emit k (.class_unregister cls)
  { k with registry := { k.registry with devclass := false } }

/-- Host `class_destroy(cls)`. -/
def class_destroy (k : Kernel) (cls : Nat) : Kernel :=
  let k := emit k (.class_destroy cls)
  { k with registry := { k.registry with devclass := false } }

/-- Host `device_create(cls, NULL, MKDEV(major, 0), NULL, name)`: the node
exists exactly when the result is not an error pointer. -/
def device_create (h : InitHost) (k : Kernel) (cls : Nat) (major : Int) : Nat × Kernel :=
  let k := emit k (.device_create cls major 0 DEVICE_NAME)
  (h.device_create,
    if IS_ERR h.device_create then k else { k with registry := { k.registry with devnode := true } })

/-- Host `device_destroy(cls, MKDEV(major, 0))`. -/
def device_destroy (k : Kernel) (cls : Nat) (major : Int) : Kernel :=
  let k := emit k (.device_destroy cls major 0)
  { k with registry := { k.registry with devnode := false } }

/-- The function `mymem_init` of the source. -/
def mymem_init (h : InitHost) (k : Kernel) : Int × Kernel :=
  let k := emit k (.printk "KERN_INFO" "mymem: Initializing memory character device driver\n" [])
  let r := register_chrdev h k
  let k : Kernel := { r.2 with mod := { r.2.mod with major_number := r.1 } }
  if k.mod.major_number < 0 then
    let k := emit k (.printk "KERN_ALERT" "mymem: Failed to register a major number\n" [])
    (k.mod.major_number, k)
  else
    let k := emit k (.printk "KERN_INFO" "mymem: Registered correctly with major number %d\n"
      [k.mod.major_number])
    let c := class_create h k
    let k : Kernel := { c.2 with mod := { c.2.mod with mymem_class := c.1 } }
    if IS_ERR k.mod.mymem_class then
      let k := unregister_chrdev k k.mod.major_number
      let k := emit k (.printk "KERN_ALERT" "mymem: Failed to register device class\n" [])
      (toInt32 (PTR_ERR k.mod.mymem_class), k)
    else
      let k := emit k (.printk "KERN_INFO" "mymem: Device class registered correctly\n" [])
      let d := device_create h k k.mod.mymem_class k.mod.major_number
      let k : Kernel := { d.2 with mod := { d.2.mod with mymem_device := d.1 } }
      if IS_ERR k.mod.mymem_device then
        let k := class_destroy k k.mod.mymem_class
        let k := unregister_chrdev k k.mod.major_number
        let k := emit k (.printk "KERN_ALERT" "mymem: Failed to create the device\n" [])
        (toInt32 (PTR_ERR k.mod.mymem_device), k)
      else
        let k := emit k (.printk "KERN_INFO" "mymem: Device created successfully\n" [])
        let k := emit k (.printk "KERN_INFO" "mymem: Use 'cat /dev/mymem' to read memory info\n" [])
        (0, k)

/-- The function `mymem_exit` of the source. -/
def mymem_exit (k : Kernel) : Kernel :=
  let k := if k.mod.meminfo_buffer.isSome then setBuffer (emit k .kfree) none else k
  let k := device_destroy k k.mod.mymem_class k.mod.major_number
  let k := emit k (.printk "KERN_INFO" "mymem: Device removed\n" [])
  let k := class_unregister k k.mod.mymem_class
  let k := class_destroy k k.mod.mymem_class
  let k := emit k (.printk "KERN_INFO" "mymem: Device class unregistered\n" [])
  let k := unregister_chrdev k k.mod.major_number
  let k := emit k (.printk "KERN_INFO" "mymem: Unregistered major number %d\n" [k.mod.major_number])
  emit k (.printk "KERN_INFO" "mymem: Memory character device driver removed\n" [])

/-- The host calls made between state `before` and state `after`. -/
def newEvents (before after : Kernel) : List Event := after.trace.drop before.trace.length

/-- The host calls `read_meminfo` makes up to and including `kmalloc`, given
whether a snapshot buffer was held on entry. -/
def prologueEvents (held : Bool) : List Event :=
  [.filp_open "/proc/meminfo", .get_fs, .set_fs_kernel] ++
    (if held then [.kfree] else []) ++ [.kmalloc MEMINFO_BUFFER_SIZE]

/-! ## The outcomes of one read, as conditions on the host's answers -/

/-- The report source cannot be opened: `filp_open` returns an error pointer. -/
def openFails (h : ReadHost) : Prop := IS_ERR h.filp_open = true

/-- The open succeeds and `kmalloc` returns `NULL`. -/
def allocFails (h : ReadHost) : Prop := IS_ERR h.filp_open = false ∧ h.kmalloc_ok = false

/-- The open and the allocation succeed and `kernel_read` returns an error. -/
def sourceReadFails (h : ReadHost) : Prop :=
  IS_ERR h.filp_open = false ∧ h.kmalloc_ok = true ∧ h.read_errno ≠ 0

/-- The open, the allocation and the source read succeed and the caller's
buffer `ub` has fewer writable bytes than the `min (min (length R) 4095) n`
bytes `copy_to_user` is asked to copy. -/
def copyFails (h : ReadHost) (ub : List Cell) (n : Nat) : Prop :=
  IS_ERR h.filp_open = false ∧ h.kmalloc_ok = true ∧ h.read_errno = 0 ∧
    ub.length < min (min h.report.length 4095) n

/-- The open, the allocation, the source read and the copy all succeed. -/
def allSucceed (h : ReadHost) (ub : List Cell) (n : Nat) : Prop :=
  IS_ERR h.filp_open = false ∧ h.kmalloc_ok = true ∧ h.read_errno = 0 ∧
    min (min h.report.length 4095) n ≤ ub.length

instance (h : ReadHost) : Decidable (openFails h) := by unfold openFails; infer_instance

instance (h : ReadHost) : Decidable (allocFails h) := by unfold allocFails; infer_instance

instance (h : ReadHost) : Decidable (sourceReadFails h) := by
  unfold sourceReadFails; infer_instance

instance (h : ReadHost) (ub : List Cell) (n : Nat) : Decidable (copyFails h ub n) := by
  unfold copyFails; infer_instance

instance (h : ReadHost) (ub : List Cell) (n : Nat) : Decidable (allSucceed h ub n) := by
  unfold allSucceed; infer_instance

/-! ## Auxiliary definitions for the statements -/

/-- State of `read_meminfo` once the report is open and `kmalloc` has been
called: lines 53 to 60 of the source. -/
def readPrologue (k : Kernel) : Kernel :=
  let k := emit (emit (emit k (.filp_open "/proc/meminfo")) .get_fs) .set_fs_kernel
  emit (if k.mod.meminfo_buffer.isSome then emit k .kfree else k) (.kmalloc MEMINFO_BUFFER_SIZE)

/-- Number of bytes `kernel_read` stores for a report `R`. -/
def snapshotLen (R : List Nat) : Nat := min (MEMINFO_BUFFER_SIZE - 1) R.length

/-- Content of the snapshot buffer after a successful source read of `R`. -/
def snapshot (R : List Nat) : List Cell :=
  ((R.take (MEMINFO_BUFFER_SIZE - 1)).map some ++
    List.replicate (MEMINFO_BUFFER_SIZE - snapshotLen R) none).set (snapshotLen R) (some 0)

/-- State of `read_meminfo` after a successful source read, up to the call of
`copy_to_user` with `m` bytes. -/
def readEpilogue (k : Kernel) (R : List Nat) (m : Nat) : Kernel :=
  emit (setBuffer (emit (emit (emit (readPrologue k)
    (.kernel_read (MEMINFO_BUFFER_SIZE - 1) 0)) .set_fs_old) .filp_close) (some (snapshot R)))
    (.copy_to_user m)

/-- The report of the end-to-end example, as bytes. -/
def sampleReport : List Nat :=
  "MemTotal: 8000000 kB\nMemFree: 500000 kB\n".toList.map Char.toNat

/-- Host state in which nothing has happened yet: module loaded, no snapshot
buffer, empty trace. -/
def freshKernel : Kernel := ⟨⟨240, 1, 1, none⟩, Registry.loaded, []⟩

/-- State after an earlier read of length 0 that succeeded: the snapshot
buffer is held and the cursor is still 0. -/
def afterEarlierRead : Kernel :=
  (mymem_read ⟨0, true, [77, 101, 109], 0⟩ freshKernel [] 0 0).kernel

/-! ## Machine-word lemmas -/

theorem toSize_natCast {n : Nat} (hn : n < 2 ^ 64) : toSize (n : Int) = n := by
  unfold toSize
  have h : ((n : Int) % 2 ^ 64) = (n : Int) := Int.emod_eq_of_lt (by omega) (by omega)
  rw [h]; simp

theorem toSsize_natCast {n : Nat} (hn : n < 2 ^ 63) : toSsize (n : Int) = n := by
  unfold toSsize
  have h : ((n : Int) % 2 ^ 64) = (n : Int) := Int.emod_eq_of_lt (by omega) (by omega)
  rw [h]
  have : (n : Int) < 2 ^ 63 := by omega
  rw [if_pos this]

theorem toSsize_natCast_high {n : Nat} (h1 : 2 ^ 63 ≤ n) (h2 : n < 2 ^ 64) :
    toSsize (n : Int) = (n : Int) - 2 ^ 64 := by
  unfold toSsize
  have h : ((n : Int) % 2 ^ 64) = (n : Int) := Int.emod_eq_of_lt (by omega) (by omega)
  rw [h]
  have : ¬ (n : Int) < 2 ^ 63 := by omega
  rw [if_neg this]

theorem PTR_ERR_of_IS_ERR {p : Nat} (h : IS_ERR p = true) :
    PTR_ERR p = ((p % 2 ^ 64 : Nat) : Int) - 2 ^ 64 ∧ -4095 ≤ PTR_ERR p ∧ PTR_ERR p < 0 := by
  unfold IS_ERR MAX_ERRNO at h
  unfold PTR_ERR toSsize
  have hp : p % 2 ^ 64 < 2 ^ 64 := Nat.mod_lt _ (by norm_num)
  have h' : 2 ^ 64 - 4095 ≤ p % 2 ^ 64 := by simpa using h
  have e : ((p : Int) % 2 ^ 64) = ((p % 2 ^ 64 : Nat) : Int) := by push_cast; rfl
  rw [e]
  have : ¬ ((p % 2 ^ 64 : Nat) : Int) < 2 ^ 63 := by omega
  rw [if_neg this]
  refine ⟨rfl, ?_, ?_⟩ <;> omega

theorem toInt32_small {x : Int} (h1 : -2 ^ 31 ≤ x) (h2 : x < 0) : toInt32 x = x := by
  unfold toInt32
  have e : x % 2 ^ 32 = x + 2 ^ 32 := by
    rw [← Int.add_emod_self]
    exact Int.emod_eq_of_lt (by omega) (by omega)
  rw [e]
  have : ¬ x + 2 ^ 32 < 2 ^ 31 := by omega
  rw [if_neg this]; omega

/-! ## The four paths of `read_meminfo` -/

theorem read_meminfo_open_fail (h : ReadHost) (k : Kernel) (ub : List Cell) (n : Nat)
    (ho : IS_ERR h.filp_open = true) :
    read_meminfo h k ub n =
      ⟨PTR_ERR h.filp_open,
        emit (emit k (.filp_open "/proc/meminfo"))
          (.printk "KERN_ERR" "mymem: Failed to open /proc/meminfo\n" []), ub⟩ := by
  simp [read_meminfo, ho]

theorem read_meminfo_alloc_fail (h : ReadHost) (k : Kernel) (ub : List Cell) (n : Nat)
    (ho : IS_ERR h.filp_open = false) (ha : h.kmalloc_ok = false) :
    read_meminfo h k ub n =
      ⟨-ENOMEM, emit (emit (setBuffer (readPrologue k) none) .filp_close) .set_fs_old, ub⟩ := by
  simp [read_meminfo, readPrologue, ho, ha]

theorem read_meminfo_read_fail (h : ReadHost) (k : Kernel) (ub : List Cell) (n : Nat)
    (ho : IS_ERR h.filp_open = false) (ha : h.kmalloc_ok = true) (hr : h.read_errno ≠ 0) :
    read_meminfo h k ub n =
      ⟨-(h.read_errno : Int),
        setBuffer (emit (emit (emit (emit (readPrologue k)
          (.kernel_read (MEMINFO_BUFFER_SIZE - 1) 0)) .set_fs_old) .filp_close) .kfree) none,
        ub⟩ := by
  have hneg : -(h.read_errno : Int) < 0 := by omega
  simp [read_meminfo, readPrologue, kernel_read, emit, setBuffer, ho, ha, hr, hneg]

theorem snapshotLen_le (R : List Nat) : snapshotLen R ≤ 4095 := by
  unfold snapshotLen MEMINFO_BUFFER_SIZE; omega

theorem kernel_read_ok (h : ReadHost) (hr : h.read_errno = 0) :
    kernel_read h (List.replicate MEMINFO_BUFFER_SIZE none) (MEMINFO_BUFFER_SIZE - 1) 0 =
      ((snapshotLen h.report : Int),
        (h.report.take (MEMINFO_BUFFER_SIZE - 1)).map some ++
          List.replicate (MEMINFO_BUFFER_SIZE - snapshotLen h.report) none) := by
  simp [kernel_read, hr, snapshotLen]

theorem truncate_eq (kr n : Nat) (hk : kr ≤ 4095) :
    (if toSize (kr : Int) > n then toSsize (n : Int) else (kr : Int)) = ((min kr n : Nat) : Int) := by
  rw [toSize_natCast (by omega)]
  by_cases hgt : kr > n
  · rw [if_pos hgt, toSsize_natCast (by omega), Nat.min_eq_right (by omega)]
  · rw [if_neg hgt, Nat.min_eq_left (by omega)]

theorem truncate_eq_lt (kr n : Nat) (hk : kr ≤ 4095) :
    (if n < kr then toSsize (n : Int) else (kr : Int)) = ((min kr n : Nat) : Int) := by
  have := truncate_eq kr n hk
  rwa [toSize_natCast (by omega)] at this

theorem read_meminfo_read_ok (h : ReadHost) (k : Kernel) (ub : List Cell) (n : Nat)
    (ho : IS_ERR h.filp_open = false) (ha : h.kmalloc_ok = true) (hr : h.read_errno = 0) :
    read_meminfo h k ub n =
      if min (snapshotLen h.report) n ≤ ub.length then
        ⟨((min (snapshotLen h.report) n : Nat) : Int),
          readEpilogue k h.report (min (snapshotLen h.report) n),
          (snapshot h.report).take (min (snapshotLen h.report) n) ++
            ub.drop (min (snapshotLen h.report) n)⟩
      else
        ⟨-EFAULT, readEpilogue k h.report (min (snapshotLen h.report) n),
          (snapshot h.report).take ub.length ++ ub.drop ub.length⟩ := by
  have hk := snapshotLen_le h.report
  have hnn : ¬ ((snapshotLen h.report : Nat) : Int) < 0 := by omega
  have hm : min (snapshotLen h.report) n < 2 ^ 64 := by omega
  unfold read_meminfo
  simp only [ho, ha, Bool.false_eq_true, if_false, Bool.not_true, kernel_read_ok h hr, hnn,
    truncate_eq _ n hk, truncate_eq_lt _ n hk, gt_iff_lt, toSize_natCast hm, toSize_natCast (show snapshotLen h.report < 2 ^ 64 by omega),
    copy_to_user]
  by_cases hc : min (snapshotLen h.report) n ≤ ub.length
  · have e : min (min (snapshotLen h.report) n) ub.length = min (snapshotLen h.report) n :=
      Nat.min_eq_left hc
    simp [hc, e, readEpilogue, readPrologue, snapshot, emit, setBuffer]
  · have e : min (min (snapshotLen h.report) n) ub.length = ub.length :=
      Nat.min_eq_right (by omega)
    have hne : min (snapshotLen h.report) n - ub.length ≠ 0 := by omega
    simp [hc, e, hne, readEpilogue, readPrologue, snapshot, emit, setBuffer]

/-! ## The snapshot buffer -/

theorem take_set_of_le {α : Type} (l : List α) (a : α) {m i : Nat} (h : m ≤ i) :
    (l.set i a).take m = l.take m := by
  rw [List.set_take]
  exact List.set_eq_of_length_le (by rw [List.length_take]; omega)

theorem snapshot_length (R : List Nat) : (snapshot R).length = MEMINFO_BUFFER_SIZE := by
  have := snapshotLen_le R
  simp only [snapshot, List.length_set, List.length_append, List.length_map, List.length_take,
    List.length_replicate]
  unfold snapshotLen MEMINFO_BUFFER_SIZE at *
  omega

theorem snapshot_terminator (R : List Nat) : (snapshot R)[snapshotLen R]? = some (some 0) := by
  have := snapshotLen_le R
  unfold snapshot
  rw [List.getElem?_set_self]
  simp only [List.length_append, List.length_map, List.length_take, List.length_replicate]
  unfold snapshotLen MEMINFO_BUFFER_SIZE at *
  omega

theorem snapshot_take (R : List Nat) {m : Nat} (hm : m ≤ snapshotLen R) :
    (snapshot R).take m = (R.take m).map some := by
  unfold snapshot
  rw [take_set_of_le _ _ hm, List.take_append_of_le_length, ← List.map_take, List.take_take]
  · congr 2
    unfold snapshotLen at hm
    omega
  · simp only [List.length_map, List.length_take]
    unfold snapshotLen at hm
    omega

/-! ## Traces and frames of the four paths -/

theorem readPrologue_trace (k : Kernel) :
    (readPrologue k).trace = k.trace ++ prologueEvents k.mod.meminfo_buffer.isSome := by
  unfold readPrologue prologueEvents
  cases hb : k.mod.meminfo_buffer <;> simp [emit, hb]

theorem readPrologue_mod (k : Kernel) : (readPrologue k).mod = k.mod := by
  unfold readPrologue
  cases hb : k.mod.meminfo_buffer <;> simp [emit, hb]

theorem readPrologue_registry (k : Kernel) : (readPrologue k).registry = k.registry := by
  unfold readPrologue
  cases hb : k.mod.meminfo_buffer <;> simp [emit, hb]

theorem readEpilogue_trace (k : Kernel) (R : List Nat) (m : Nat) :
    (readEpilogue k R m).trace =
      k.trace ++ (prologueEvents k.mod.meminfo_buffer.isSome ++
        [.kernel_read (MEMINFO_BUFFER_SIZE - 1) 0, .set_fs_old, .filp_close, .copy_to_user m]) := by
  simp [readEpilogue, emit, setBuffer, readPrologue_trace]

theorem readEpilogue_mod (k : Kernel) (R : List Nat) (m : Nat) :
    (readEpilogue k R m).mod = { k.mod with meminfo_buffer := some (snapshot R) } := by
  simp [readEpilogue, emit, setBuffer, readPrologue_mod]

theorem readEpilogue_registry (k : Kernel) (R : List Nat) (m : Nat) :
    (readEpilogue k R m).registry = k.registry := by
  simp [readEpilogue, emit, setBuffer, readPrologue_registry]

theorem newEvents_append (k k2 : Kernel) (es : List Event) (h : k2.trace = k.trace ++ es) :
    newEvents k k2 = es := by
  simp [newEvents, h]

/-- At cursor 0, `mymem_read` returns what `read_meminfo` returns. -/
theorem mymem_read_zero (h : ReadHost) (k : Kernel) (ub : List Cell) (n : Nat) :
    (mymem_read h k ub n 0).ret = (read_meminfo h k ub n).ret ∧
    (mymem_read h k ub n 0).kernel = (read_meminfo h k ub n).kernel ∧
    (mymem_read h k ub n 0).user = (read_meminfo h k ub n).user := by
  unfold mymem_read
  simp only [gt_iff_lt, lt_self_iff_false, if_false]
  split <;> exact ⟨rfl, rfl, rfl⟩

/-- At a positive cursor, `mymem_read` returns 0 and changes nothing. -/
theorem mymem_read_pos (h : ReadHost) (k : Kernel) (ub : List Cell) (n : Nat) (off : Int)
    (hoff : 0 < off) : mymem_read h k ub n off = ⟨0, k, ub, off⟩ := by
  unfold mymem_read
  simp [hoff]

/-- Every result of `read_meminfo` is at most 4095. -/
theorem read_meminfo_ret_le (h : ReadHost) (k : Kernel) (ub : List Cell) (n : Nat) :
    (read_meminfo h k ub n).ret ≤ 4095 := by
  cases ho : IS_ERR h.filp_open
  · cases ha : h.kmalloc_ok
    · rw [read_meminfo_alloc_fail h k ub n ho ha]; simp [ENOMEM]
    · by_cases hr : h.read_errno = 0
      · rw [read_meminfo_read_ok h k ub n ho ha hr]
        have := snapshotLen_le h.report
        split
        · show ((min (snapshotLen h.report) n : Nat) : Int) ≤ 4095
          omega
        · simp [EFAULT]
      · rw [read_meminfo_read_fail h k ub n ho ha hr]
        show -(h.read_errno : Int) ≤ 4095
        omega
  · rw [read_meminfo_open_fail h k ub n ho]
    have := (PTR_ERR_of_IS_ERR ho).2.2
    dsimp only
    omega

/-- Cursor after a read at cursor 0. -/
theorem mymem_read_zero_offset (h : ReadHost) (k : Kernel) (ub : List Cell) (n : Nat) :
    (mymem_read h k ub n 0).offset =
      if 0 < (read_meminfo h k ub n).ret then (read_meminfo h k ub n).ret else 0 := by
  have hle := read_meminfo_ret_le h k ub n
  unfold mymem_read
  simp only [gt_iff_lt, lt_self_iff_false, if_false]
  by_cases hp : 0 < (read_meminfo h k ub n).ret
  · simp only [hp, if_true, zero_add]
    obtain ⟨m, hm⟩ := Int.eq_ofNat_of_zero_le (le_of_lt hp)
    rw [hm]
    exact toSsize_natCast (by omega)
  · simp only [hp, if_false]

/-- A read at cursor 0 in terms of `read_meminfo`. -/
theorem mymem_read_zero_eq (h : ReadHost) (k : Kernel) (ub : List Cell) (n : Nat) :
    mymem_read h k ub n 0 =
      ⟨(read_meminfo h k ub n).ret, (read_meminfo h k ub n).kernel, (read_meminfo h k ub n).user,
        if 0 < (read_meminfo h k ub n).ret then (read_meminfo h k ub n).ret else 0⟩ := by
  have hz := mymem_read_zero h k ub n
  have hoff := mymem_read_zero_offset h k ub n
  have e : mymem_read h k ub n 0 =
      ⟨(mymem_read h k ub n 0).ret, (mymem_read h k ub n 0).kernel,
        (mymem_read h k ub n 0).user, (mymem_read h k ub n 0).offset⟩ := rfl
  rw [e, hz.1, hz.2.1, hz.2.2, hoff]

/-- A read at cursor 0 in which the open, the allocation, the source read and
the copy all succeed. -/
theorem mymem_read_success (h : ReadHost) (k : Kernel) (ub : List Cell) (n : Nat)
    (ho : IS_ERR h.filp_open = false) (ha : h.kmalloc_ok = true) (hr : h.read_errno = 0)
    (hc : min (snapshotLen h.report) n ≤ ub.length) :
    mymem_read h k ub n 0 =
      ⟨((min (snapshotLen h.report) n : Nat) : Int),
        readEpilogue k h.report (min (snapshotLen h.report) n),
        (h.report.take (min (snapshotLen h.report) n)).map some ++
          ub.drop (min (snapshotLen h.report) n),
        ((min (snapshotLen h.report) n : Nat) : Int)⟩ := by
  have hz := mymem_read_zero h k ub n
  have hoff := mymem_read_zero_offset h k ub n
  have hrd := read_meminfo_read_ok h k ub n ho ha hr
  rw [if_pos hc, snapshot_take h.report (Nat.min_le_left _ _)] at hrd
  rw [hrd] at hz hoff
  have e : mymem_read h k ub n 0 =
      ⟨(mymem_read h k ub n 0).ret, (mymem_read h k ub n 0).kernel,
        (mymem_read h k ub n 0).user, (mymem_read h k ub n 0).offset⟩ := rfl
  rw [e, hz.1, hz.2.1, hz.2.2, hoff]
  congr 1
  dsimp only
  split
  · rfl
  · omega

/-! ## Claims about a successful first read -/

/-- C1 (amended): for every report `R` of at most 4095 bytes and every
requested length `n`, a `mymem_read` at cursor 0 in which the open, the
allocation, the source read and the copy succeed returns `min (length R) n`,
the first that-many bytes of the caller's buffer are the first that-many bytes
of `R`, and the rest of the caller's buffer is unchanged. -/
theorem C1_first_read_delivers_report (h : ReadHost) (k : Kernel) (ub : List Cell) (n : Nat)
    (hlen : h.report.length ≤ MEMINFO_BUFFER_SIZE - 1)
    (ho : IS_ERR h.filp_open = false) (ha : h.kmalloc_ok = true) (hr : h.read_errno = 0)
    (hc : min h.report.length n ≤ ub.length) :
    (mymem_read h k ub n 0).ret = ((min h.report.length n : Nat) : Int) ∧
    (mymem_read h k ub n 0).user.take (min h.report.length n) =
      (h.report.take (min h.report.length n)).map some ∧
    (mymem_read h k ub n 0).user.drop (min h.report.length n) =
      ub.drop (min h.report.length n) := by
  have hs : snapshotLen h.report = h.report.length := by
    unfold snapshotLen; omega
  have hc2 : min (snapshotLen h.report) n ≤ ub.length := by rw [hs]; exact hc
  rw [mymem_read_success h k ub n ho ha hr hc2, hs]
  have hl : ((h.report.take (min h.report.length n)).map some).length = min h.report.length n := by
    simp
  refine ⟨rfl, ?_, ?_⟩
  · dsimp only
    rw [List.take_append_of_le_length (by omega), List.take_of_length_le (by omega)]
  · dsimp only
    rw [List.drop_append_of_le_length (by omega), List.drop_of_length_le (by omega)]
    rfl

/-- Witness of C1: a report of three bytes read with a request of two into a
buffer of two bytes. -/
theorem C1_first_read_delivers_report_witness :
    [77, 101, 109].length ≤ MEMINFO_BUFFER_SIZE - 1 ∧ IS_ERR 0 = false ∧
    min [77, 101, 109].length 2 ≤ [(none : Cell), none].length ∧
    (mymem_read ⟨0, true, [77, 101, 109], 0⟩ freshKernel [none, none] 2 0).ret =
        ((min [77, 101, 109].length 2 : Nat) : Int) ∧
    (mymem_read ⟨0, true, [77, 101, 109], 0⟩ freshKernel [none, none] 2 0).user.take
        (min [77, 101, 109].length 2) = ([77, 101, 109].take (min [77, 101, 109].length 2)).map some ∧
    (mymem_read ⟨0, true, [77, 101, 109], 0⟩ freshKernel [none, none] 2 0).user.drop
        (min [77, 101, 109].length 2) = [none, none].drop (min [77, 101, 109].length 2) :=
  ⟨by decide, by decide, by decide,
    C1_first_read_delivers_report ⟨0, true, [77, 101, 109], 0⟩ freshKernel [none, none] 2
      (by decide) (by decide) rfl rfl (by decide)⟩

/-- C1 as stated fails: with a report of 4096 bytes and a request of 4096
bytes into a buffer of 4096 bytes, every step succeeds and the read returns
4095, not `min 4096 4096 = 4096`. -/
theorem C1_counterexample :
    IS_ERR 0 = false ∧
    (mymem_read ⟨0, true, List.replicate 4096 65, 0⟩ freshKernel (List.replicate 4096 none)
      4096 0).ret = 4095 ∧
    (mymem_read ⟨0, true, List.replicate 4096 65, 0⟩ freshKernel (List.replicate 4096 none)
      4096 0).ret ≠ ((min (List.replicate 4096 65).length 4096 : Nat) : Int) := by
  have hs : snapshotLen (List.replicate 4096 65) = 4095 := by
    simp only [snapshotLen, MEMINFO_BUFFER_SIZE, List.length_replicate]; rfl
  have ho : IS_ERR 0 = false := by decide
  have e := mymem_read_success ⟨0, true, List.replicate 4096 65, 0⟩ freshKernel
    (List.replicate 4096 none) 4096 ho rfl rfl
    (by simp only [hs, List.length_replicate]; decide)
  refine ⟨ho, ?_, ?_⟩
  · rw [e]; simp only [hs]; rfl
  · rw [e]; simp only [hs, List.length_replicate]; decide

/-- C4: a successful `mymem_read` at cursor 0 returns
`min (min (length R) 4095) n`, which is at most 4095 and at most `n`, and
delivers the first that-many bytes of `R`.  The one source read of the call
asks for `MEMINFO_BUFFER_SIZE - 1 = 4095` bytes, the snapshot buffer held
afterwards has 4096 bytes, and the terminator 0 is stored at index
`min (length R) 4095`, inside the buffer. -/
theorem C4_read_bounded_by_buffer (h : ReadHost) (k : Kernel) (ub : List Cell) (n : Nat)
    (ho : IS_ERR h.filp_open = false) (ha : h.kmalloc_ok = true) (hr : h.read_errno = 0)
    (hc : min (min h.report.length 4095) n ≤ ub.length) :
    (mymem_read h k ub n 0).ret = ((min (min h.report.length 4095) n : Nat) : Int) ∧
    (mymem_read h k ub n 0).ret ≤ 4095 ∧
    (mymem_read h k ub n 0).ret ≤ (n : Int) ∧
    (mymem_read h k ub n 0).user.take (min (min h.report.length 4095) n) =
      (h.report.take (min (min h.report.length 4095) n)).map some ∧
    newEvents k (mymem_read h k ub n 0).kernel =
      prologueEvents k.mod.meminfo_buffer.isSome ++
        [.kernel_read (MEMINFO_BUFFER_SIZE - 1) 0, .set_fs_old, .filp_close,
          .copy_to_user (min (min h.report.length 4095) n)] ∧
    MEMINFO_BUFFER_SIZE - 1 = 4095 ∧
    ∃ buf, (mymem_read h k ub n 0).kernel.mod.meminfo_buffer = some buf ∧
      buf.length = 4096 ∧ min h.report.length 4095 < buf.length ∧
      buf[min h.report.length 4095]? = some (some 0) := by
  have hs : snapshotLen h.report = min h.report.length 4095 := by
    unfold snapshotLen MEMINFO_BUFFER_SIZE; omega
  have hc2 : min (snapshotLen h.report) n ≤ ub.length := by rw [hs]; exact hc
  rw [mymem_read_success h k ub n ho ha hr hc2, hs]
  have hl : ((h.report.take (min (min h.report.length 4095) n)).map some).length =
      min (min h.report.length 4095) n := by
    simp only [List.length_map, List.length_take]; omega
  refine ⟨rfl, ?_, ?_, ?_, ?_, rfl, snapshot h.report, ?_, ?_, ?_, ?_⟩
  · dsimp only; omega
  · dsimp only; omega
  · dsimp only
    rw [List.take_append_of_le_length (by omega), List.take_of_length_le (by omega)]
  · exact newEvents_append _ _ _ (readEpilogue_trace k h.report _)
  · dsimp only; rw [readEpilogue_mod]
  · exact snapshot_length h.report
  · rw [snapshot_length]; unfold MEMINFO_BUFFER_SIZE; omega
  · rw [← hs]; exact snapshot_terminator h.report

/-- Witness of C4: a report of three bytes read with a request of two gives
two bytes. -/
theorem C4_read_bounded_by_buffer_witness :
    IS_ERR 0 = false ∧
    (mymem_read ⟨0, true, [77, 101, 109], 0⟩ freshKernel [none, none] 2 0).ret =
      ((min (min [77, 101, 109].length 4095) 2 : Nat) : Int) :=
  ⟨by decide,
    (C4_read_bounded_by_buffer ⟨0, true, [77, 101, 109], 0⟩ freshKernel [none, none] 2
      (by decide) rfl rfl (by decide)).1⟩

/-! ## The end-to-end example -/

theorem sampleReport_length : sampleReport.length = 40 := by decide

/-- C9 (amended): with the report
`"MemTotal: 8000000 kB\nMemFree: 500000 kB\n"` (40 bytes) and a destination
buffer of capacity 1000 (requested length 1000), the first `mymem_read` on a
fresh handle returns 40 and the delivered bytes are exactly that string; a
second `mymem_read` on the same handle returns 0. -/
theorem C9_end_to_end (h : ReadHost) (k : Kernel) (ub : List Cell)
    (hrep : h.report = sampleReport) (hub : ub.length = 1000)
    (ho : IS_ERR h.filp_open = false) (ha : h.kmalloc_ok = true) (hr : h.read_errno = 0) :
    (mymem_read h k ub 1000 0).ret = 40 ∧
    (mymem_read h k ub 1000 0).user.take 40 = sampleReport.map some ∧
    (mymem_read h k ub 1000 0).user.drop 40 = ub.drop 40 ∧
    ∀ (h2 : ReadHost) (ub2 : List Cell) (n2 : Nat),
      (mymem_read h2 (mymem_read h k ub 1000 0).kernel ub2 n2
        (mymem_read h k ub 1000 0).offset).ret = 0 := by
  have hs : snapshotLen h.report = 40 := by
    rw [hrep]; unfold snapshotLen MEMINFO_BUFFER_SIZE; rw [sampleReport_length]; rfl
  have hm : min (snapshotLen h.report) 1000 = 40 := by rw [hs]; rfl
  rw [mymem_read_success h k ub 1000 ho ha hr (by rw [hm, hub]; decide), hm, hrep]
  have ht : sampleReport.take 40 = sampleReport := by
    apply List.take_of_length_le; rw [sampleReport_length]
  have hl : (sampleReport.map some).length = 40 := by
    rw [List.length_map, sampleReport_length]
  rw [ht]
  refine ⟨rfl, ?_, ?_, ?_⟩
  · dsimp only
    rw [List.take_append_of_le_length (by omega), List.take_of_length_le (by omega)]
  · dsimp only
    rw [List.drop_append_of_le_length (by omega), List.drop_of_length_le (by omega)]
    rfl
  · intro h2 ub2 n2
    dsimp only
    rw [mymem_read_pos h2 _ ub2 n2 _ (by decide)]

/-- Witness of C9: the example on the fresh state with an unwritten buffer of
1000 bytes. -/
theorem C9_end_to_end_witness :
    (⟨0, true, sampleReport, 0⟩ : ReadHost).report = sampleReport ∧
    (List.replicate 1000 (none : Cell)).length = 1000 ∧
    (mymem_read ⟨0, true, sampleReport, 0⟩ freshKernel (List.replicate 1000 none) 1000 0).ret
      = 40 :=
  ⟨rfl, List.length_replicate _ _,
    (C9_end_to_end ⟨0, true, sampleReport, 0⟩ freshKernel (List.replicate 1000 none) rfl
      (List.length_replicate _ _) (by decide) rfl rfl).1⟩

/-- C9 as stated fails: on that input the first read returns 40, not 41. -/
theorem C9_counterexample :
    sampleReport.length = 40 ∧
    (mymem_read ⟨0, true, sampleReport, 0⟩ freshKernel (List.replicate 1000 none) 1000 0).ret
      = 40 ∧
    (mymem_read ⟨0, true, sampleReport, 0⟩ freshKernel (List.replicate 1000 none) 1000 0).ret
      ≠ 41 := by
  have hs : snapshotLen sampleReport = 40 := by
    unfold snapshotLen MEMINFO_BUFFER_SIZE; rw [sampleReport_length]; rfl
  have e := mymem_read_success ⟨0, true, sampleReport, 0⟩ freshKernel
    (List.replicate 1000 none) 1000 (by decide) rfl rfl
    (by simp only [hs, List.length_replicate]; decide)
  refine ⟨sampleReport_length, ?_, ?_⟩
  · rw [e]; simp only [hs]; rfl
  · rw [e]; simp only [hs]; decide

/-! ## The outcomes of a read at cursor 0 -/

theorem snapshotLen_eq (R : List Nat) : snapshotLen R = min R.length 4095 := by
  unfold snapshotLen MEMINFO_BUFFER_SIZE; omega

/-- Exactly one of the five outcomes applies to a call. -/
theorem read_outcomes (h : ReadHost) (ub : List Cell) (n : Nat) :
    openFails h ∨ allocFails h ∨ sourceReadFails h ∨ copyFails h ub n ∨ allSucceed h ub n := by
  unfold openFails allocFails sourceReadFails copyFails allSucceed
  cases ho : IS_ERR h.filp_open
  · cases ha : h.kmalloc_ok
    · exact Or.inr (Or.inl ⟨rfl, rfl⟩)
    · by_cases hr : h.read_errno = 0
      · by_cases hc : min (min h.report.length 4095) n ≤ ub.length
        · exact Or.inr (Or.inr (Or.inr (Or.inr ⟨rfl, rfl, hr, hc⟩)))
        · exact Or.inr (Or.inr (Or.inr (Or.inl ⟨rfl, rfl, hr, by omega⟩)))
      · exact Or.inr (Or.inr (Or.inl ⟨rfl, rfl, hr⟩))
  · exact Or.inl rfl

theorem mymem_read_openFails (h : ReadHost) (k : Kernel) (ub : List Cell) (n : Nat)
    (hf : openFails h) :
    mymem_read h k ub n 0 =
      ⟨PTR_ERR h.filp_open,
        emit (emit k (.filp_open "/proc/meminfo"))
          (.printk "KERN_ERR" "mymem: Failed to open /proc/meminfo\n" []), ub, 0⟩ := by
  have hneg := (PTR_ERR_of_IS_ERR hf).2.2
  have : ¬ 0 < PTR_ERR h.filp_open := by omega
  rw [mymem_read_zero_eq, read_meminfo_open_fail h k ub n hf]
  dsimp only
  rw [if_neg this]

theorem mymem_read_allocFails (h : ReadHost) (k : Kernel) (ub : List Cell) (n : Nat)
    (hf : allocFails h) :
    mymem_read h k ub n 0 =
      ⟨-ENOMEM, emit (emit (setBuffer (readPrologue k) none) .filp_close) .set_fs_old, ub, 0⟩ := by
  have : ¬ 0 < -ENOMEM := by unfold ENOMEM; omega
  rw [mymem_read_zero_eq, read_meminfo_alloc_fail h k ub n hf.1 hf.2]
  dsimp only
  rw [if_neg this]

theorem mymem_read_sourceReadFails (h : ReadHost) (k : Kernel) (ub : List Cell) (n : Nat)
    (hf : sourceReadFails h) :
    mymem_read h k ub n 0 =
      ⟨-(h.read_errno : Int),
        setBuffer (emit (emit (emit (emit (readPrologue k)
          (.kernel_read (MEMINFO_BUFFER_SIZE - 1) 0)) .set_fs_old) .filp_close) .kfree) none,
        ub, 0⟩ := by
  have : ¬ 0 < -(h.read_errno : Int) := by omega
  rw [mymem_read_zero_eq, read_meminfo_read_fail h k ub n hf.1 hf.2.1 hf.2.2]
  dsimp only
  rw [if_neg this]

theorem mymem_read_copyFails (h : ReadHost) (k : Kernel) (ub : List Cell) (n : Nat)
    (hf : copyFails h ub n) :
    mymem_read h k ub n 0 =
      ⟨-EFAULT, readEpilogue k h.report (min (min h.report.length 4095) n),
        (snapshot h.report).take ub.length ++ ub.drop ub.length, 0⟩ := by
  obtain ⟨ho, ha, hr, hc⟩ := hf
  have hn : ¬ min (min h.report.length 4095) n ≤ ub.length := by omega
  have : ¬ 0 < -EFAULT := by unfold EFAULT; omega
  rw [mymem_read_zero_eq, read_meminfo_read_ok h k ub n ho ha hr, snapshotLen_eq, if_neg hn]
  dsimp only
  rw [if_neg this]

theorem mymem_read_allSucceed (h : ReadHost) (k : Kernel) (ub : List Cell) (n : Nat)
    (hf : allSucceed h ub n) :
    mymem_read h k ub n 0 =
      ⟨((min (min h.report.length 4095) n : Nat) : Int),
        readEpilogue k h.report (min (min h.report.length 4095) n),
        (h.report.take (min (min h.report.length 4095) n)).map some ++
          ub.drop (min (min h.report.length 4095) n),
        ((min (min h.report.length 4095) n : Nat) : Int)⟩ := by
  obtain ⟨ho, ha, hr, hc⟩ := hf
  have := mymem_read_success h k ub n ho ha hr (by rw [snapshotLen_eq]; exact hc)
  rwa [snapshotLen_eq] at this

/-- The host calls of a read at cursor 0, for each outcome. -/
theorem mymem_read_zero_events (h : ReadHost) (k : Kernel) (ub : List Cell) (n : Nat) :
    (openFails h → newEvents k (mymem_read h k ub n 0).kernel =
      [.filp_open "/proc/meminfo",
        .printk "KERN_ERR" "mymem: Failed to open /proc/meminfo\n" []]) ∧
    (allocFails h → newEvents k (mymem_read h k ub n 0).kernel =
      prologueEvents k.mod.meminfo_buffer.isSome ++ [.filp_close, .set_fs_old]) ∧
    (sourceReadFails h → newEvents k (mymem_read h k ub n 0).kernel =
      prologueEvents k.mod.meminfo_buffer.isSome ++
        [.kernel_read (MEMINFO_BUFFER_SIZE - 1) 0, .set_fs_old, .filp_close, .kfree]) ∧
    (copyFails h ub n ∨ allSucceed h ub n → newEvents k (mymem_read h k ub n 0).kernel =
      prologueEvents k.mod.meminfo_buffer.isSome ++
        [.kernel_read (MEMINFO_BUFFER_SIZE - 1) 0, .set_fs_old, .filp_close,
          .copy_to_user (min (min h.report.length 4095) n)]) := by
  refine ⟨fun hf => ?_, fun hf => ?_, fun hf => ?_, fun hf => ?_⟩
  · rw [mymem_read_openFails h k ub n hf]
    exact newEvents_append _ _ _ (by simp [emit])
  · rw [mymem_read_allocFails h k ub n hf]
    exact newEvents_append _ _ _ (by simp [emit, setBuffer, readPrologue_trace])
  · rw [mymem_read_sourceReadFails h k ub n hf]
    exact newEvents_append _ _ _ (by simp [emit, setBuffer, readPrologue_trace])
  · rcases hf with hf | hf
    · rw [mymem_read_copyFails h k ub n hf]
      exact newEvents_append _ _ _ (readEpilogue_trace k h.report _)
    · rw [mymem_read_allSucceed h k ub n hf]
      exact newEvents_append _ _ _ (readEpilogue_trace k h.report _)

/-- A read at cursor 0 always starts by opening the report source. -/
theorem mymem_read_zero_opens (h : ReadHost) (k : Kernel) (ub : List Cell) (n : Nat) :
    ∃ rest, newEvents k (mymem_read h k ub n 0).kernel = .filp_open "/proc/meminfo" :: rest := by
  obtain ⟨e1, e2, e3, e4⟩ := mymem_read_zero_events h k ub n
  rcases read_outcomes h ub n with hf | hf | hf | hf | hf
  · exact ⟨_, e1 hf⟩
  · exact ⟨_, by rw [e2 hf]; rfl⟩
  · exact ⟨_, by rw [e3 hf]; rfl⟩
  · exact ⟨_, by rw [e4 (Or.inl hf)]; rfl⟩
  · exact ⟨_, by rw [e4 (Or.inr hf)]; rfl⟩

/-- A read at cursor 0 opens the report source exactly once. -/
theorem mymem_read_zero_opens_once (h : ReadHost) (k : Kernel) (ub : List Cell) (n : Nat) :
    (newEvents k (mymem_read h k ub n 0).kernel).count (.filp_open "/proc/meminfo") = 1 := by
  obtain ⟨e1, e2, e3, e4⟩ := mymem_read_zero_events h k ub n
  rcases read_outcomes h ub n with hf | hf | hf | hf | hf
  · rw [e1 hf]; decide
  · rw [e2 hf]; cases k.mod.meminfo_buffer.isSome <;> decide
  · rw [e3 hf]; cases k.mod.meminfo_buffer.isSome <;> decide
  · rw [e4 (Or.inl hf)]; cases k.mod.meminfo_buffer.isSome <;> simp [prologueEvents, List.count_cons]
  · rw [e4 (Or.inr hf)]; cases k.mod.meminfo_buffer.isSome <;> simp [prologueEvents, List.count_cons]

/-- The result of a read at cursor 0 is positive only when every step
succeeds. -/
theorem allSucceed_of_pos (h : ReadHost) (k : Kernel) (ub : List Cell) (n : Nat)
    (hpos : 0 < (mymem_read h k ub n 0).ret) : allSucceed h ub n := by
  rcases read_outcomes h ub n with hf | hf | hf | hf | hf
  · rw [mymem_read_openFails h k ub n hf] at hpos
    have := (PTR_ERR_of_IS_ERR hf).2.2
    dsimp only at hpos; omega
  · rw [mymem_read_allocFails h k ub n hf] at hpos
    dsimp only at hpos; unfold ENOMEM at hpos; omega
  · rw [mymem_read_sourceReadFails h k ub n hf] at hpos
    dsimp only at hpos; omega
  · rw [mymem_read_copyFails h k ub n hf] at hpos
    dsimp only at hpos; unfold EFAULT at hpos; omega
  · exact hf

/-- Calls on a handle whose cursor is positive leave the cursor where it is. -/
theorem runCalls_offset (cs : List Call) (k : Kernel) (off : Int) (hoff : 0 < off) :
    (runCalls cs (k, off)).2 = off := by
  induction cs generalizing k with
  | nil => rfl
  | cons c cs ih =>
    cases c with
    | read h buffer count =>
      have e : runCalls (Call.read h buffer count :: cs) (k, off) =
          runCalls cs ((mymem_read h k buffer count off).kernel,
            (mymem_read h k buffer count off).offset) := rfl
      rw [e, mymem_read_pos h k buffer count off hoff]
      exact ih k
    | write buffer count =>
      have e : runCalls (Call.write buffer count :: cs) (k, off) =
          runCalls cs ((mymem_write k buffer count off).kernel, off) := rfl
      rw [e]
      exact ih _

/-! ## Claims about the cursor -/

/-- C2: if a `mymem_read` starting at cursor 0 returned a positive count, then
after any further calls `cs` (reads and writes) on the same handle, a
`mymem_read` on that handle returns exactly 0 for every requested length
`n2`, every host `h2`, every state `k2` and every caller buffer `ub2`: it makes
no host call (the report source is not queried), and the state (snapshot
buffer included), the caller's buffer and the cursor are exactly what they
were. -/
theorem C2_later_reads_return_eof (h : ReadHost) (k : Kernel) (ub : List Cell) (n1 : Nat)
    (hpos : 0 < (mymem_read h k ub n1 0).ret) :
    ∀ (cs : List Call) (h2 : ReadHost) (k2 : Kernel) (ub2 : List Cell) (n2 : Nat),
      (runCalls cs ((mymem_read h k ub n1 0).kernel, (mymem_read h k ub n1 0).offset)).2 =
        (mymem_read h k ub n1 0).offset ∧
      mymem_read h2 k2 ub2 n2
          (runCalls cs ((mymem_read h k ub n1 0).kernel, (mymem_read h k ub n1 0).offset)).2 =
        ⟨0, k2, ub2, (mymem_read h k ub n1 0).offset⟩ ∧
      newEvents k2 (mymem_read h2 k2 ub2 n2
          (runCalls cs ((mymem_read h k ub n1 0).kernel,
            (mymem_read h k ub n1 0).offset)).2).kernel = [] := by
  intro cs h2 k2 ub2 n2
  have hoff : 0 < (mymem_read h k ub n1 0).offset := by
    rw [mymem_read_zero_offset, ← (mymem_read_zero h k ub n1).1, if_pos hpos]
    exact hpos
  have hrun := runCalls_offset cs (mymem_read h k ub n1 0).kernel _ hoff
  rw [hrun, mymem_read_pos h2 k2 ub2 n2 _ hoff]
  exact ⟨rfl, rfl, by simp [newEvents]⟩

/-- Witness of C2: a short read (two bytes requested of a three-byte report)
returns a positive count. -/
theorem C2_later_reads_return_eof_witness :
    0 < (mymem_read ⟨0, true, [77, 101, 109], 0⟩ freshKernel [none, none] 2 0).ret ∧
    mymem_read ⟨0, true, [77, 101, 109], 0⟩ freshKernel [none, none, none] 3
        (runCalls [] ((mymem_read ⟨0, true, [77, 101, 109], 0⟩ freshKernel [none, none] 2 0).kernel,
          (mymem_read ⟨0, true, [77, 101, 109], 0⟩ freshKernel [none, none] 2 0).offset)).2 =
      ⟨0, freshKernel, [none, none, none],
        (mymem_read ⟨0, true, [77, 101, 109], 0⟩ freshKernel [none, none] 2 0).offset⟩ :=
  ⟨by rw [mymem_read_allSucceed _ _ _ _ (by decide)]; decide,
    (C2_later_reads_return_eof ⟨0, true, [77, 101, 109], 0⟩ freshKernel [none, none] 2
      (by rw [mymem_read_allSucceed _ _ _ _ (by decide)]; decide)
      [] ⟨0, true, [77, 101, 109], 0⟩ freshKernel [none, none, none] 3).2.1⟩

/-- C5: for every `mymem_read` at cursor 0: if it returns a positive count
`k`, every step succeeded, the cursor afterwards is `0 + k`, the first `k`
bytes of the caller's buffer are the first `k` bytes of the report and the
rest of the buffer is untouched, and the last host call copied `k` bytes; if
it returns 0 or a negative error, the cursor afterwards is still 0, a result
of 0 means the requested length is 0 or the report is empty, and the next
read on the handle (any host, state, buffer and length) starts by opening the
report source. -/
theorem C5_cursor_after_read (h : ReadHost) (k : Kernel) (ub : List Cell) (n : Nat) :
    (0 < (mymem_read h k ub n 0).ret →
      (mymem_read h k ub n 0).offset = 0 + (mymem_read h k ub n 0).ret ∧
      allSucceed h ub n ∧
      (mymem_read h k ub n 0).user =
        (h.report.take (mymem_read h k ub n 0).ret.toNat).map some ++
          ub.drop (mymem_read h k ub n 0).ret.toNat ∧
      ∃ pre, newEvents k (mymem_read h k ub n 0).kernel =
        pre ++ [.copy_to_user (mymem_read h k ub n 0).ret.toNat]) ∧
    ((mymem_read h k ub n 0).ret ≤ 0 →
      (mymem_read h k ub n 0).offset = 0 ∧
      ((mymem_read h k ub n 0).ret = 0 → n = 0 ∨ h.report = []) ∧
      ∀ (h2 : ReadHost) (k2 : Kernel) (ub2 : List Cell) (n2 : Nat),
        ∃ rest, newEvents k2 (mymem_read h2 k2 ub2 n2 (mymem_read h k ub n 0).offset).kernel =
          .filp_open "/proc/meminfo" :: rest) := by
  constructor
  · intro hpos
    have hs := allSucceed_of_pos h k ub n hpos
    have hev := (mymem_read_zero_events h k ub n).2.2.2 (Or.inr hs)
    rw [mymem_read_allSucceed h k ub n hs] at hev ⊢
    dsimp only at hev ⊢
    rw [Int.toNat_ofNat]
    refine ⟨by omega, hs, rfl,
      prologueEvents k.mod.meminfo_buffer.isSome ++
        [.kernel_read (MEMINFO_BUFFER_SIZE - 1) 0, .set_fs_old, .filp_close], ?_⟩
    rw [hev, List.append_assoc]
    rfl
  · intro hle
    have hoff : (mymem_read h k ub n 0).offset = 0 := by
      rw [mymem_read_zero_offset, ← (mymem_read_zero h k ub n).1, if_neg (by omega)]
    refine ⟨hoff, ?_, ?_⟩
    · intro hz
      rcases read_outcomes h ub n with hf | hf | hf | hf | hf
      · rw [mymem_read_openFails h k ub n hf] at hz
        have := (PTR_ERR_of_IS_ERR hf).2.2
        dsimp only at hz; omega
      · rw [mymem_read_allocFails h k ub n hf] at hz
        dsimp only at hz; unfold ENOMEM at hz; omega
      · rw [mymem_read_sourceReadFails h k ub n hf] at hz
        have := hf.2.2
        dsimp only at hz; omega
      · rw [mymem_read_copyFails h k ub n hf] at hz
        dsimp only at hz; unfold EFAULT at hz; omega
      · rw [mymem_read_allSucceed h k ub n hf] at hz
        dsimp only at hz
        have hm : min (min h.report.length 4095) n = 0 := by omega
        by_cases hn : n = 0
        · exact Or.inl hn
        · right
          apply List.eq_nil_of_length_eq_zero
          omega
    · intro h2 k2 ub2 n2
      rw [hoff]
      exact mymem_read_zero_opens h2 k2 ub2 n2

/-! ## Writes -/

/-- The result of `read_meminfo` depends on the state only through the module
variables and the registrations, not through the trace. -/
theorem read_meminfo_congr (h : ReadHost) (k k2 : Kernel) (ub : List Cell) (n : Nat)
    (hm : k2.mod = k.mod) (hreg : k2.registry = k.registry) :
    (read_meminfo h k2 ub n).ret = (read_meminfo h k ub n).ret ∧
    (read_meminfo h k2 ub n).user = (read_meminfo h k ub n).user ∧
    (read_meminfo h k2 ub n).kernel.mod = (read_meminfo h k ub n).kernel.mod ∧
    (read_meminfo h k2 ub n).kernel.registry = (read_meminfo h k ub n).kernel.registry := by
  cases ho : IS_ERR h.filp_open
  · cases ha : h.kmalloc_ok
    · rw [read_meminfo_alloc_fail h k ub n ho ha, read_meminfo_alloc_fail h k2 ub n ho ha]
      simp [emit, setBuffer, readPrologue_mod, readPrologue_registry, hm, hreg]
    · by_cases hr : h.read_errno = 0
      · rw [read_meminfo_read_ok h k ub n ho ha hr, read_meminfo_read_ok h k2 ub n ho ha hr]
        split <;> simp [readEpilogue_mod, readEpilogue_registry, hm, hreg]
      · rw [read_meminfo_read_fail h k ub n ho ha hr, read_meminfo_read_fail h k2 ub n ho ha hr]
        simp [emit, setBuffer, readPrologue_mod, readPrologue_registry, hm, hreg]
  · rw [read_meminfo_open_fail h k ub n ho, read_meminfo_open_fail h k2 ub n ho]
    simp [emit, hm, hreg]

/-- The same for `mymem_read`, at any cursor. -/
theorem mymem_read_congr (h : ReadHost) (k k2 : Kernel) (ub : List Cell) (n : Nat) (off : Int)
    (hm : k2.mod = k.mod) (hreg : k2.registry = k.registry) :
    (mymem_read h k2 ub n off).ret = (mymem_read h k ub n off).ret ∧
    (mymem_read h k2 ub n off).user = (mymem_read h k ub n off).user ∧
    (mymem_read h k2 ub n off).offset = (mymem_read h k ub n off).offset ∧
    (mymem_read h k2 ub n off).kernel.mod = (mymem_read h k ub n off).kernel.mod ∧
    (mymem_read h k2 ub n off).kernel.registry = (mymem_read h k ub n off).kernel.registry := by
  obtain ⟨e1, e2, e3, e4⟩ := read_meminfo_congr h k k2 ub n hm hreg
  unfold mymem_read
  by_cases hoff : off > 0
  · rw [if_pos hoff, if_pos hoff]
    exact ⟨rfl, rfl, rfl, hm, hreg⟩
  · rw [if_neg hoff, if_neg hoff]
    dsimp only
    rw [e1]
    split
    · exact ⟨rfl, e2, rfl, e3, e4⟩
    · exact ⟨rfl, e2, rfl, e3, e4⟩

theorem mymem_write_ret (k : Kernel) (ub : List Cell) (N : Nat) (off : Int) :
    (mymem_write k ub N off).ret = toSsize (N : Int) := by
  simp only [mymem_write]

/-- C3 (amended): for every requested length `N` representable as `size_t`,
every source buffer and every cursor, `mymem_write` returns `N` when `N` is at
most the largest `ssize_t` and `N - 2^64` (a negative number) when it is
larger; in both cases the cursor, the caller's buffer, the module variables
(snapshot buffer included) and the registrations are unchanged, the only host
call is one `printk` noting the length, and a subsequent read (any host,
buffer, length and cursor) has the same result, delivered bytes, cursor and
module state as it would have had without the write. -/
theorem C3_write_is_ignored (k : Kernel) (ub : List Cell) (N : Nat) (off : Int)
    (hN : N ≤ SIZE_MAX) :
    (N ≤ SSIZE_MAX → (mymem_write k ub N off).ret = (N : Int)) ∧
    (SSIZE_MAX < N → (mymem_write k ub N off).ret = (N : Int) - 2 ^ 64) ∧
    (mymem_write k ub N off).offset = off ∧
    (mymem_write k ub N off).user = ub ∧
    (mymem_write k ub N off).kernel.mod = k.mod ∧
    (mymem_write k ub N off).kernel.registry = k.registry ∧
    newEvents k (mymem_write k ub N off).kernel =
      [.printk "KERN_INFO" "mymem: Write operation ignored (count=%zu)\n" [(N : Int)]] ∧
    ∀ (h : ReadHost) (ub2 : List Cell) (n2 : Nat) (off2 : Int),
      (mymem_read h (mymem_write k ub N off).kernel ub2 n2 off2).ret =
        (mymem_read h k ub2 n2 off2).ret ∧
      (mymem_read h (mymem_write k ub N off).kernel ub2 n2 off2).user =
        (mymem_read h k ub2 n2 off2).user ∧
      (mymem_read h (mymem_write k ub N off).kernel ub2 n2 off2).offset =
        (mymem_read h k ub2 n2 off2).offset ∧
      (mymem_read h (mymem_write k ub N off).kernel ub2 n2 off2).kernel.mod =
        (mymem_read h k ub2 n2 off2).kernel.mod ∧
      (mymem_read h (mymem_write k ub N off).kernel ub2 n2 off2).kernel.registry =
        (mymem_read h k ub2 n2 off2).kernel.registry := by
  unfold SIZE_MAX at hN
  refine ⟨fun h1 => ?_, fun h2 => ?_, rfl, rfl, rfl, rfl, ?_, ?_⟩
  · unfold SSIZE_MAX at h1
    rw [mymem_write_ret, toSsize_natCast (by omega)]
  · unfold SSIZE_MAX at h2
    rw [mymem_write_ret, toSsize_natCast_high (by omega) (by omega)]
  · exact newEvents_append _ _ _ rfl
  · intro h ub2 n2 off2
    exact mymem_read_congr h k _ ub2 n2 off2 rfl rfl

/-- Witness of C3: a write of five bytes at cursor 0. -/
theorem C3_write_is_ignored_witness :
    5 ≤ SIZE_MAX ∧ (mymem_write freshKernel [some 104, some 101, some 108, some 108, some 111] 5 0).ret
      = 5 :=
  ⟨by decide,
    (C3_write_is_ignored freshKernel [some 104, some 101, some 108, some 108, some 111] 5 0
      (by decide)).1 (by decide)⟩

/-- C3 as stated fails: for `N = 2^63`, which is representable as `size_t` and
is above the largest `ssize_t`, `mymem_write` returns `-2^63`, not `N`. -/
theorem C3_counterexample :
    2 ^ 63 ≤ SIZE_MAX ∧ SSIZE_MAX < 2 ^ 63 ∧
    (mymem_write freshKernel [] (2 ^ 63) 0).ret = -(2 ^ 63) ∧
    (mymem_write freshKernel [] (2 ^ 63) 0).ret ≠ ((2 ^ 63 : Nat) : Int) := by
  have e : (mymem_write freshKernel [] (2 ^ 63) 0).ret = ((2 ^ 63 : Nat) : Int) - 2 ^ 64 := by
    rw [mymem_write_ret, toSsize_natCast_high (by norm_num) (by norm_num)]
  refine ⟨by decide, by decide, ?_, ?_⟩
  · rw [e]; norm_num
  · rw [e]; norm_num

/-! ## Errors of a read -/

/-- C6 (amended): for every `mymem_read` at cursor 0: if the report source
cannot be opened the call returns the error of the open, a value from -4095
to -1; otherwise if the snapshot buffer cannot be allocated it returns
`-ENOMEM` (-12); otherwise if the source read fails it returns the error of
the source read; otherwise if the copy to the caller fails it returns
`-EFAULT` (-14).  In each case the result is negative, it is the result of
`read_meminfo` unchanged, the cursor stays 0 and the report source was opened
exactly once (no retry); and every negative result of the read is one of
these four failures. -/
theorem C6_read_errors (h : ReadHost) (k : Kernel) (ub : List Cell) (n : Nat) :
    (openFails h → (mymem_read h k ub n 0).ret = PTR_ERR h.filp_open ∧
      -4095 ≤ (mymem_read h k ub n 0).ret ∧ (mymem_read h k ub n 0).ret < 0) ∧
    (allocFails h → (mymem_read h k ub n 0).ret = -ENOMEM ∧ (mymem_read h k ub n 0).ret = -12) ∧
    (sourceReadFails h → (mymem_read h k ub n 0).ret = -(h.read_errno : Int) ∧
      (mymem_read h k ub n 0).ret < 0) ∧
    (copyFails h ub n → (mymem_read h k ub n 0).ret = -EFAULT ∧
      (mymem_read h k ub n 0).ret = -14) ∧
    ((mymem_read h k ub n 0).ret < 0 →
      (openFails h ∨ allocFails h ∨ sourceReadFails h ∨ copyFails h ub n) ∧
      (mymem_read h k ub n 0).offset = 0) ∧
    (mymem_read h k ub n 0).ret = (read_meminfo h k ub n).ret ∧
    (newEvents k (mymem_read h k ub n 0).kernel).count (.filp_open "/proc/meminfo") = 1 := by
  refine ⟨fun hf => ?_, fun hf => ?_, fun hf => ?_, fun hf => ?_, fun hneg => ?_,
    (mymem_read_zero h k ub n).1, mymem_read_zero_opens_once h k ub n⟩
  · rw [mymem_read_openFails h k ub n hf]
    have hp := PTR_ERR_of_IS_ERR hf
    dsimp only
    exact ⟨Eq.refl _, hp.2.1, hp.2.2⟩
  · rw [mymem_read_allocFails h k ub n hf]
    exact ⟨rfl, rfl⟩
  · rw [mymem_read_sourceReadFails h k ub n hf]
    have := hf.2.2
    exact ⟨rfl, by dsimp only; omega⟩
  · rw [mymem_read_copyFails h k ub n hf]
    exact ⟨rfl, rfl⟩
  · have hoff : (mymem_read h k ub n 0).offset = 0 := by
      rw [mymem_read_zero_offset, ← (mymem_read_zero h k ub n).1, if_neg (by omega)]
    refine ⟨?_, hoff⟩
    rcases read_outcomes h ub n with hf | hf | hf | hf | hf
    · exact Or.inl hf
    · exact Or.inr (Or.inl hf)
    · exact Or.inr (Or.inr (Or.inl hf))
    · exact Or.inr (Or.inr (Or.inr hf))
    · rw [mymem_read_allSucceed h k ub n hf] at hneg
      dsimp only at hneg
      omega

/-- C6 as stated fails: when the open and the allocation succeed and the
source read fails with error 5 (`EIO`), the read returns -5; the result is
negative although the open did not fail, the allocation did not fail and no
copy to the caller was attempted. -/
theorem C6_counterexample :
    (mymem_read ⟨0, true, [77, 101, 109], 5⟩ freshKernel [none, none] 2 0).ret = -5 ∧
    (mymem_read ⟨0, true, [77, 101, 109], 5⟩ freshKernel [none, none] 2 0).ret < 0 ∧
    ¬ openFails ⟨0, true, [77, 101, 109], 5⟩ ∧
    ¬ allocFails ⟨0, true, [77, 101, 109], 5⟩ ∧
    ¬ copyFails ⟨0, true, [77, 101, 109], 5⟩ [none, none] 2 ∧
    newEvents freshKernel
        (mymem_read ⟨0, true, [77, 101, 109], 5⟩ freshKernel [none, none] 2 0).kernel =
      [.filp_open "/proc/meminfo", .get_fs, .set_fs_kernel, .kmalloc 4096,
        .kernel_read 4095 0, .set_fs_old, .filp_close, .kfree] := by
  have hf : sourceReadFails ⟨0, true, [77, 101, 109], 5⟩ := by decide
  refine ⟨?_, ?_, by decide, by decide, by decide, ?_⟩
  · rw [mymem_read_sourceReadFails _ _ _ _ hf]; rfl
  · rw [mymem_read_sourceReadFails _ _ _ _ hf]; decide
  · rw [(mymem_read_zero_events _ freshKernel [none, none] 2).2.2.1 hf]; rfl

/-- C7 (amended): for every prior module state and every `mymem_read` at
cursor 0 that returns an error: after an allocation failure or a source read
failure the snapshot buffer pointer is `NULL`; after a source open failure
the snapshot buffer is exactly what it was before the call (still held if it
was held); after a copy-to-caller failure the fresh snapshot of the report is
held. -/
theorem C7_buffer_after_error (h : ReadHost) (k : Kernel) (ub : List Cell) (n : Nat) :
    (allocFails h → (mymem_read h k ub n 0).kernel.mod.meminfo_buffer = none) ∧
    (sourceReadFails h → (mymem_read h k ub n 0).kernel.mod.meminfo_buffer = none) ∧
    (openFails h → (mymem_read h k ub n 0).kernel.mod.meminfo_buffer = k.mod.meminfo_buffer) ∧
    (copyFails h ub n →
      (mymem_read h k ub n 0).kernel.mod.meminfo_buffer = some (snapshot h.report)) := by
  refine ⟨fun hf => ?_, fun hf => ?_, fun hf => ?_, fun hf => ?_⟩
  · rw [mymem_read_allocFails h k ub n hf]; rfl
  · rw [mymem_read_sourceReadFails h k ub n hf]; rfl
  · rw [mymem_read_openFails h k ub n hf]; rfl
  · rw [mymem_read_copyFails h k ub n hf]
    dsimp only
    rw [readEpilogue_mod]

/-- C7 as stated fails on two of its four error paths.  After an earlier
read left a snapshot buffer, a read whose open fails with `-ENOENT` returns
-2 and the buffer is still held; and on the fresh state, a read whose copy to
the caller fails returns -14 and the new snapshot buffer is held. -/
theorem C7_counterexample :
    (afterEarlierRead.mod.meminfo_buffer ≠ none ∧
      (mymem_read ⟨2 ^ 64 - 2, true, [77, 101, 109], 0⟩ afterEarlierRead [none] 1 0).ret = -2 ∧
      (mymem_read ⟨2 ^ 64 - 2, true, [77, 101, 109], 0⟩ afterEarlierRead [none] 1
        0).kernel.mod.meminfo_buffer ≠ none) ∧
    ((mymem_read ⟨0, true, [77, 101, 109], 0⟩ freshKernel [] 1 0).ret = -14 ∧
      (mymem_read ⟨0, true, [77, 101, 109], 0⟩ freshKernel [] 1 0).kernel.mod.meminfo_buffer
        ≠ none) := by
  have h0 : allSucceed ⟨0, true, [77, 101, 109], 0⟩ [] 0 := by decide
  have hb : afterEarlierRead.mod.meminfo_buffer = some (snapshot [77, 101, 109]) := by
    unfold afterEarlierRead
    rw [mymem_read_allSucceed _ _ _ _ h0]
    dsimp only
    rw [readEpilogue_mod]
  have h1 : openFails ⟨2 ^ 64 - 2, true, [77, 101, 109], 0⟩ := by decide
  have h2 : copyFails ⟨0, true, [77, 101, 109], 0⟩ [] 1 := by decide
  refine ⟨⟨by rw [hb]; exact Option.some_ne_none _, ?_, ?_⟩, ?_, ?_⟩
  · rw [mymem_read_openFails _ _ _ _ h1]; decide
  · rw [mymem_read_openFails _ _ _ _ h1]
    show afterEarlierRead.mod.meminfo_buffer ≠ none
    rw [hb]; exact Option.some_ne_none _
  · rw [mymem_read_copyFails _ _ _ _ h2]; rfl
  · rw [mymem_read_copyFails _ _ _ _ h2]
    dsimp only
    rw [readEpilogue_mod]
    exact Option.some_ne_none _

/-! ## Module load -/

theorem toInt32_PTR_ERR {p : Nat} (hp : IS_ERR p = true) :
    toInt32 (PTR_ERR p) = PTR_ERR p ∧ PTR_ERR p < 0 := by
  have hq := PTR_ERR_of_IS_ERR hp
  exact ⟨toInt32_small (by omega) hq.2.2, hq.2.2⟩

theorem mymem_init_register_fails (h : InitHost) (k : Kernel) (hr : h.register_chrdev < 0) :
    mymem_init h k =
      (h.register_chrdev,
        { mod := { k.mod with major_number := h.register_chrdev },
          registry := k.registry,
          trace := k.trace ++
            [.printk "KERN_INFO" "mymem: Initializing memory character device driver\n" [],
              .register_chrdev 0 DEVICE_NAME,
              .printk "KERN_ALERT" "mymem: Failed to register a major number\n" []] }) := by
  simp [mymem_init, register_chrdev, emit, hr]

theorem mymem_init_class_fails (h : InitHost) (k : Kernel) (hr : 0 ≤ h.register_chrdev)
    (hc : IS_ERR h.class_create = true) :
    mymem_init h k =
      (toInt32 (PTR_ERR h.class_create),
        { mod := { k.mod with major_number := h.register_chrdev, mymem_class := h.class_create },
          registry := { k.registry with chrdev := false },
          trace := k.trace ++
            [.printk "KERN_INFO" "mymem: Initializing memory character device driver\n" [],
              .register_chrdev 0 DEVICE_NAME,
              .printk "KERN_INFO" "mymem: Registered correctly with major number %d\n"
                [h.register_chrdev],
              .class_create CLASS_NAME,
              .unregister_chrdev h.register_chrdev DEVICE_NAME,
              .printk "KERN_ALERT" "mymem: Failed to register device class\n" []] }) := by
  have hr2 : ¬ h.register_chrdev < 0 := by omega
  simp [mymem_init, register_chrdev, class_create, unregister_chrdev, emit, hr2, hc]

theorem mymem_init_device_fails (h : InitHost) (k : Kernel) (hr : 0 ≤ h.register_chrdev)
    (hc : IS_ERR h.class_create = false) (hd : IS_ERR h.device_create = true) :
    mymem_init h k =
      (toInt32 (PTR_ERR h.device_create),
        { mod := { major_number := h.register_chrdev, mymem_class := h.class_create,
                   mymem_device := h.device_create, meminfo_buffer := k.mod.meminfo_buffer },
          registry := { k.registry with chrdev := false, devclass := false },
          trace := k.trace ++
            [.printk "KERN_INFO" "mymem: Initializing memory character device driver\n" [],
              .register_chrdev 0 DEVICE_NAME,
              .printk "KERN_INFO" "mymem: Registered correctly with major number %d\n"
                [h.register_chrdev],
              .class_create CLASS_NAME,
              .printk "KERN_INFO" "mymem: Device class registered correctly\n" [],
              .device_create h.class_create h.register_chrdev 0 DEVICE_NAME,
              .class_destroy h.class_create,
              .unregister_chrdev h.register_chrdev DEVICE_NAME,
              .printk "KERN_ALERT" "mymem: Failed to create the device\n" []] }) := by
  have hr2 : ¬ h.register_chrdev < 0 := by omega
  simp [mymem_init, register_chrdev, class_create, device_create, class_destroy,
    unregister_chrdev, emit, hr2, hc, hd]

theorem mymem_init_succeeds (h : InitHost) (k : Kernel) (hr : 0 ≤ h.register_chrdev)
    (hc : IS_ERR h.class_create = false) (hd : IS_ERR h.device_create = false) :
    mymem_init h k =
      (0,
        { mod := { major_number := h.register_chrdev, mymem_class := h.class_create,
                   mymem_device := h.device_create, meminfo_buffer := k.mod.meminfo_buffer },
          registry := Registry.loaded,
          trace := k.trace ++
            [.printk "KERN_INFO" "mymem: Initializing memory character device driver\n" [],
              .register_chrdev 0 DEVICE_NAME,
              .printk "KERN_INFO" "mymem: Registered correctly with major number %d\n"
                [h.register_chrdev],
              .class_create CLASS_NAME,
              .printk "KERN_INFO" "mymem: Device class registered correctly\n" [],
              .device_create h.class_create h.register_chrdev 0 DEVICE_NAME,
              .printk "KERN_INFO" "mymem: Device created successfully\n" [],
              .printk "KERN_INFO" "mymem: Use 'cat /dev/mymem' to read memory info\n" []] }) := by
  have hr2 : ¬ h.register_chrdev < 0 := by omega
  simp [mymem_init, register_chrdev, class_create, device_create, emit, hr2, hc, hd,
    Registry.loaded]

/-- C8: starting from the Unloaded state (nothing registered), for every
outcome of the three host calls of `mymem_init`: (i) if the registration of
the major number fails, init returns that error, nothing is registered and
nothing was released; (ii) if the class creation fails, init returns that
error, the major number has been unregistered and nothing is registered;
(iii) if the device-node creation fails, init returns that error, the class
has been destroyed and then the major number unregistered, and nothing is
registered; (iv) init returns 0 exactly when all three succeed, and then all
three are registered.  A load that does not return 0 leaves nothing
registered. -/
theorem C8_init_unwinds_on_failure (h : InitHost) (m : Module) (tr : List Event) :
    (h.register_chrdev < 0 →
      (mymem_init h ⟨m, Registry.empty, tr⟩).1 = h.register_chrdev ∧
      (mymem_init h ⟨m, Registry.empty, tr⟩).2.registry = Registry.empty ∧
      releaseSteps (newEvents ⟨m, Registry.empty, tr⟩ (mymem_init h ⟨m, Registry.empty, tr⟩).2)
        = []) ∧
    (0 ≤ h.register_chrdev ∧ IS_ERR h.class_create = true →
      (mymem_init h ⟨m, Registry.empty, tr⟩).1 = PTR_ERR h.class_create ∧
      (mymem_init h ⟨m, Registry.empty, tr⟩).1 < 0 ∧
      (mymem_init h ⟨m, Registry.empty, tr⟩).2.registry = Registry.empty ∧
      releaseSteps (newEvents ⟨m, Registry.empty, tr⟩ (mymem_init h ⟨m, Registry.empty, tr⟩).2)
        = [.major]) ∧
    (0 ≤ h.register_chrdev ∧ IS_ERR h.class_create = false ∧ IS_ERR h.device_create = true →
      (mymem_init h ⟨m, Registry.empty, tr⟩).1 = PTR_ERR h.device_create ∧
      (mymem_init h ⟨m, Registry.empty, tr⟩).1 < 0 ∧
      (mymem_init h ⟨m, Registry.empty, tr⟩).2.registry = Registry.empty ∧
      releaseSteps (newEvents ⟨m, Registry.empty, tr⟩ (mymem_init h ⟨m, Registry.empty, tr⟩).2)
        = [.devclass, .major]) ∧
    ((mymem_init h ⟨m, Registry.empty, tr⟩).1 = 0 ↔
      0 ≤ h.register_chrdev ∧ IS_ERR h.class_create = false ∧ IS_ERR h.device_create = false) ∧
    ((mymem_init h ⟨m, Registry.empty, tr⟩).1 = 0 →
      (mymem_init h ⟨m, Registry.empty, tr⟩).2.registry = Registry.loaded ∧
      releaseSteps (newEvents ⟨m, Registry.empty, tr⟩ (mymem_init h ⟨m, Registry.empty, tr⟩).2)
        = []) ∧
    ((mymem_init h ⟨m, Registry.empty, tr⟩).1 ≠ 0 →
      (mymem_init h ⟨m, Registry.empty, tr⟩).2.registry = Registry.empty) := by
  have case1 : h.register_chrdev < 0 →
      (mymem_init h ⟨m, Registry.empty, tr⟩).1 = h.register_chrdev ∧
      (mymem_init h ⟨m, Registry.empty, tr⟩).2.registry = Registry.empty ∧
      releaseSteps (newEvents ⟨m, Registry.empty, tr⟩ (mymem_init h ⟨m, Registry.empty, tr⟩).2)
        = [] := by
    intro hr
    rw [mymem_init_register_fails h _ hr]
    refine ⟨rfl, rfl, ?_⟩
    rw [newEvents_append _ _ _ rfl]
    rfl
  have case2 : 0 ≤ h.register_chrdev ∧ IS_ERR h.class_create = true →
      (mymem_init h ⟨m, Registry.empty, tr⟩).1 = PTR_ERR h.class_create ∧
      (mymem_init h ⟨m, Registry.empty, tr⟩).1 < 0 ∧
      (mymem_init h ⟨m, Registry.empty, tr⟩).2.registry = Registry.empty ∧
      releaseSteps (newEvents ⟨m, Registry.empty, tr⟩ (mymem_init h ⟨m, Registry.empty, tr⟩).2)
        = [.major] := by
    rintro ⟨hr, hc⟩
    have hp := toInt32_PTR_ERR hc
    rw [mymem_init_class_fails h _ hr hc]
    dsimp only
    rw [hp.1]
    refine ⟨Eq.refl _, hp.2, rfl, ?_⟩
    rw [newEvents_append _ _ _ rfl]
    rfl
  have case3 : 0 ≤ h.register_chrdev ∧ IS_ERR h.class_create = false ∧
      IS_ERR h.device_create = true →
      (mymem_init h ⟨m, Registry.empty, tr⟩).1 = PTR_ERR h.device_create ∧
      (mymem_init h ⟨m, Registry.empty, tr⟩).1 < 0 ∧
      (mymem_init h ⟨m, Registry.empty, tr⟩).2.registry = Registry.empty ∧
      releaseSteps (newEvents ⟨m, Registry.empty, tr⟩ (mymem_init h ⟨m, Registry.empty, tr⟩).2)
        = [.devclass, .major] := by
    rintro ⟨hr, hc, hd⟩
    have hp := toInt32_PTR_ERR hd
    rw [mymem_init_device_fails h _ hr hc hd]
    dsimp only
    rw [hp.1]
    refine ⟨Eq.refl _, hp.2, rfl, ?_⟩
    rw [newEvents_append _ _ _ rfl]
    rfl
  have case4 : 0 ≤ h.register_chrdev ∧ IS_ERR h.class_create = false ∧
      IS_ERR h.device_create = false →
      (mymem_init h ⟨m, Registry.empty, tr⟩).1 = 0 ∧
      (mymem_init h ⟨m, Registry.empty, tr⟩).2.registry = Registry.loaded ∧
      releaseSteps (newEvents ⟨m, Registry.empty, tr⟩ (mymem_init h ⟨m, Registry.empty, tr⟩).2)
        = [] := by
    rintro ⟨hr, hc, hd⟩
    rw [mymem_init_succeeds h _ hr hc hd]
    refine ⟨rfl, rfl, ?_⟩
    rw [newEvents_append _ _ _ rfl]
    rfl
  have hsplit : h.register_chrdev < 0 ∨ (0 ≤ h.register_chrdev ∧ IS_ERR h.class_create = true) ∨
      (0 ≤ h.register_chrdev ∧ IS_ERR h.class_create = false ∧ IS_ERR h.device_create = true) ∨
      (0 ≤ h.register_chrdev ∧ IS_ERR h.class_create = false ∧
        IS_ERR h.device_create = false) := by
    by_cases hr : h.register_chrdev < 0
    · exact Or.inl hr
    · cases hc : IS_ERR h.class_create
      · cases hd : IS_ERR h.device_create
        · exact Or.inr (Or.inr (Or.inr ⟨by omega, rfl, rfl⟩))
        · exact Or.inr (Or.inr (Or.inl ⟨by omega, rfl, rfl⟩))
      · exact Or.inr (Or.inl ⟨by omega, rfl⟩)
  have nonzero : (mymem_init h ⟨m, Registry.empty, tr⟩).1 = 0 →
      0 ≤ h.register_chrdev ∧ IS_ERR h.class_create = false ∧
        IS_ERR h.device_create = false := by
    intro hz
    rcases hsplit with hf | hf | hf | hf
    · have := (case1 hf).1; omega
    · have := (case2 hf).2.1; omega
    · have := (case3 hf).2.1; omega
    · exact hf
  refine ⟨case1, case2, case3, ⟨nonzero, fun hf => (case4 hf).1⟩,
    fun hz => (case4 (nonzero hz)).2, fun hnz => ?_⟩
  rcases hsplit with hf | hf | hf | hf
  · exact (case1 hf).2.1
  · exact (case2 hf).2.2.1
  · exact (case3 hf).2.2.1
  · exact absurd (case4 hf).1 hnz

/-! ## Module unload -/

/-- The host calls of `mymem_exit`. -/
theorem mymem_exit_events (k : Kernel) :
    newEvents k (mymem_exit k) =
      (if k.mod.meminfo_buffer.isSome then [Event.kfree] else []) ++
        [.device_destroy k.mod.mymem_class k.mod.major_number 0,
          .printk "KERN_INFO" "mymem: Device removed\n" [],
          .class_unregister k.mod.mymem_class,
          .class_destroy k.mod.mymem_class,
          .printk "KERN_INFO" "mymem: Device class unregistered\n" [],
          .unregister_chrdev k.mod.major_number DEVICE_NAME,
          .printk "KERN_INFO" "mymem: Unregistered major number %d\n" [k.mod.major_number],
          .printk "KERN_INFO" "mymem: Memory character device driver removed\n" []] := by
  apply newEvents_append
  unfold mymem_exit
  cases hb : k.mod.meminfo_buffer <;>
    simp [device_destroy, class_unregister, class_destroy, unregister_chrdev, emit, setBuffer, hb]

/-- C10, the code at the Loaded state: `mymem_exit` frees the snapshot buffer
if present (leaving the pointer `NULL`), destroys the device node, then
releases the device class twice, first by `class_unregister` and again by
`class_destroy`, and then releases the major number; afterwards nothing is
registered. -/
theorem C10_exit_releases_class_twice (m : Module) (tr : List Event) :
    releaseSteps (newEvents ⟨m, Registry.loaded, tr⟩ (mymem_exit ⟨m, Registry.loaded, tr⟩)) =
      (if m.meminfo_buffer.isSome then [Resource.buffer] else []) ++
        [.devnode, .devclass, .devclass, .major] ∧
    (releaseSteps (newEvents ⟨m, Registry.loaded, tr⟩
      (mymem_exit ⟨m, Registry.loaded, tr⟩))).count .devclass = 2 ∧
    (mymem_exit ⟨m, Registry.loaded, tr⟩).registry = Registry.empty ∧
    (mymem_exit ⟨m, Registry.loaded, tr⟩).mod.meminfo_buffer = none := by
  rw [mymem_exit_events]
  cases hb : m.meminfo_buffer
  · refine ⟨by simp [releaseSteps, Event.releases, hb], by simp [releaseSteps, Event.releases, hb], ?_, ?_⟩
    · simp [mymem_exit, device_destroy, class_unregister, class_destroy, unregister_chrdev,
        emit, setBuffer, hb, Registry.empty]
    · simp [mymem_exit, device_destroy, class_unregister, class_destroy, unregister_chrdev,
        emit, setBuffer, hb]
  · refine ⟨by simp [releaseSteps, Event.releases, hb], by simp [releaseSteps, Event.releases, hb], ?_, ?_⟩
    · simp [mymem_exit, device_destroy, class_unregister, class_destroy, unregister_chrdev,
        emit, setBuffer, hb, Registry.empty]
    · simp [mymem_exit, device_destroy, class_unregister, class_destroy, unregister_chrdev,
        emit, setBuffer, hb]

end Mymem
